import Mathlib

/-!
Verification development for the aurelia router-configuration and
attribute-binding slice.

Part A embeds `AttributeBinding` (attribute-binding.ts): its
`handleChange`, `$bind` and `$unbind` methods, together with the scheduler
task queues they use, as explicit state-passing functions over a `World`
record.  Bitflag enumerations that the binding code consumes from the
runtime package (`LifecycleFlags`, `State`, `BindingMode`, `ObserverType`)
are embedded as records of booleans, one field per bit the code tests;
this is faithful because the code only ever sets, clears and tests single
named bits, and the named bits are pairwise disjoint in the enumeration.

Part B models the router's route-resolution pipeline.  The router
implementation itself is not part of the analysed slice (only its test
suite is), so those definitions are modelled from the specification, as
marked on each of them.
-/

/-- Expression kind as tested by `sourceExpression.$kind !== ExpressionKind.AccessScope`. -/
inductive ExprKind where
  | accessScope
  | other
deriving DecidableEq, Repr

/-- The `LifecycleFlags` bitset, one boolean per bit the binding code tests or
sets; `persistent` packs the bits of the `persistentBindingFlags` mask (which
is disjoint from the named direction/bind bits in the runtime enumeration). -/
structure LifecycleFlags where
  updateTargetInstance : Bool := false
  updateSourceExpression : Bool := false
  fromBind : Bool := false
  mustEvaluate : Bool := false
  persistent : Nat := 0
deriving DecidableEq, Repr

/-- Bitwise `|` of two flag sets. -/
def LifecycleFlags.union (a b : LifecycleFlags) : LifecycleFlags where
  updateTargetInstance := a.updateTargetInstance || b.updateTargetInstance
  updateSourceExpression := a.updateSourceExpression || b.updateSourceExpression
  fromBind := a.fromBind || b.fromBind
  mustEvaluate := a.mustEvaluate || b.mustEvaluate
  persistent := a.persistent ||| b.persistent

/-- `flags & LifecycleFlags.persistentBindingFlags`: keeps only the persistent mask. -/
def LifecycleFlags.persistentPart (a : LifecycleFlags) : LifecycleFlags :=
  { persistent := a.persistent }

/-- `LifecycleFlags.none`. -/
def LifecycleFlags.noFlags : LifecycleFlags := {}

/-- The `$state` bitfield (`State.isBinding`, `State.isBound`, `State.isUnbinding`). -/
structure BindingState where
  isBinding : Bool := false
  isBound : Bool := false
  isUnbinding : Bool := false
deriving DecidableEq, Repr

/-- The `BindingMode` bitflags (`oneTime`, `toView`, `fromView`; `twoWay` is both). -/
structure BindingMode where
  oneTime : Bool := false
  toView : Bool := false
  fromView : Bool := false
deriving DecidableEq, Repr

/-- The enum value `BindingMode.fromView` itself, compared against with `===`. -/
def BindingMode.fromViewOnly : BindingMode := { fromView := true }

/-- The `ObserverType` bits the binding code tests (`Layout`, `Node`). -/
structure ObserverType where
  layout : Bool := false
  node : Bool := false
deriving DecidableEq, Repr

/-- The source expression, as seen by the binding: `$kind`, its current
evaluated value (`evaluate` returns it, `assign` replaces it), and whether it
carries `bind`/`unbind` hooks (`hasBind`/`hasUnbind`). -/
structure SourceExpr (V : Type) where
  kind : ExprKind := ExprKind.other
  value : V
  hasBind : Bool := false
  hasUnbind : Bool := false
deriving DecidableEq, Repr

/-- The target observer (an `AttributeObserver` once created): current value,
`type` bits, `lastUpdate` timestamp, the per-binding flag slot
(`targetObserver[binding.id]`), subscription state, and which optional
methods (`bind`/`unbind`/`unsubscribe`) it carries. -/
structure TargetObserver (V : Type) where
  value : V
  type : ObserverType := {}
  lastUpdate : Nat := 0
  subscribedFlags : LifecycleFlags := {}
  subscribed : Bool := false
  hasBind : Bool := false
  hasUnbind : Bool := false
  hasUnsubscribe : Bool := false
deriving DecidableEq, Repr

/-- Observable effects emitted by the binding, in call order. -/
inductive BindingEffect (V : Type) where
  | targetWrite (value : V) (flags : LifecycleFlags)
  | sourceAssign (value : V) (flags : LifecycleFlags)
  | exprConnect (flags : LifecycleFlags)
  | unobserve (all : Bool)
  | exprBind
  | exprUnbind
  | observerBind
  | observerUnbind
  | subscribe
  | unsubscribe
deriving DecidableEq, Repr

/-- Payload of a scheduled task: the render-queue closure from
`handleChange` (captured timestamp, value and flags) or the micro-queue
closure from `$bind` (captured flags; it re-evaluates the source at run time). -/
inductive TaskPayload (V : Type) where
  | render (time : Nat) (value : V) (flags : LifecycleFlags)
  | micro (flags : LifecycleFlags)
deriving DecidableEq, Repr

/-- A queued, cancellable task. -/
structure BindingTask (V : Type) where
  id : Nat
  payload : TaskPayload V
  cancelled : Bool := false
deriving DecidableEq, Repr

/-- The `AttributeBinding` instance state.  `freshObserver` stands for the
`AttributeObserver` that the first `$bind` constructs from the binding's
fixed constructor arguments (target, targetProperty, targetAttribute);
`targetObserver` is `none` until that happens. -/
structure AttributeBinding (V : Type) where
  state : BindingState := {}
  scope : Option Nat := none
  part : Option String := none
  persistentFlags : LifecycleFlags := {}
  mode : BindingMode
  sourceExpression : SourceExpr V
  targetObserver : Option (TargetObserver V) := none
  freshObserver : TargetObserver V
  task : Option Nat := none
  observerSlots : Nat := 0
  version : Nat := 0
deriving DecidableEq, Repr

/-- The binding together with its environment: the scheduler's two queues,
a fresh-task-id counter, the current clock (`Date.now()`), and the log of
emitted effects. -/
structure World (V : Type) where
  binding : AttributeBinding V
  microQueue : List (BindingTask V) := []
  renderQueue : List (BindingTask V) := []
  nextTaskId : Nat := 0
  now : Nat := 0
  log : List (BindingEffect V) := []
deriving DecidableEq, Repr

/-- `task.cancel()`: mark the task with the given id cancelled. -/
def cancelTask {V : Type} (id : Nat) (q : List (BindingTask V)) : List (BindingTask V) :=
  q.map fun t => if t.id = id then { t with cancelled := true } else t

/-- `if (this.task != null) this.task.cancel()`. -/
def cancelPending {V : Type} (w : World V) : World V :=
  match w.binding.task with
  | none => w
  | some id =>
    { w with microQueue := cancelTask id w.microQueue
             renderQueue := cancelTask id w.renderQueue }

/-- `updateTarget`: or in the persistent flags, then
`targetObserver.setValue(value, flags | updateTargetInstance)`.  The write is
logged and the observer's value and last-applied-update timestamp change. -/
def updateTarget {V : Type} (w : World V) (value : V) (flags : LifecycleFlags) : World V :=
  let fl := { flags.union w.binding.persistentFlags with updateTargetInstance := true }
  match w.binding.targetObserver with
  | none => w
  | some obs =>
    { w with
      binding := { w.binding with targetObserver := some { obs with value := value, lastUpdate := w.now } }
      log := w.log ++ [BindingEffect.targetWrite value fl] }

/-- `updateSource`: or in the persistent flags, then
`sourceExpression.assign(flags | updateSourceExpression, scope, locator, value)`. -/
def updateSource {V : Type} (w : World V) (value : V) (flags : LifecycleFlags) : World V :=
  let fl := { flags.union w.binding.persistentFlags with updateSourceExpression := true }
  { w with
    binding := { w.binding with sourceExpression := { w.binding.sourceExpression with value := value } }
    log := w.log ++ [BindingEffect.sourceAssign value fl] }

/-- The flag adjustment at the head of `handleChange`: or in the persistent
flags, then, when the mode is exactly `fromView`, clear
`updateTargetInstance` and set `updateSourceExpression`. -/
def adjustFlags {V : Type} (b : AttributeBinding V) (flags : LifecycleFlags) : LifecycleFlags :=
  let fl := flags.union b.persistentFlags
  if b.mode = BindingMode.fromViewOnly then
    { fl with updateTargetInstance := false, updateSourceExpression := true }
  else fl

/-- The value compared and written in the target branch of `handleChange`:
re-evaluated from the source expression unless the expression is a single
observed `AccessScope`, in which case the passed-in value is used. -/
def effectiveNewValue {V : Type} (b : AttributeBinding V) (nv : V) : V :=
  if b.sourceExpression.kind ≠ ExprKind.accessScope ∨ b.observerSlots > 1 then
    b.sourceExpression.value
  else nv

/-- The layout branch of `handleChange`: cancel the pending task if any, then
queue a render-tick task stamped with the current time, keeping its id. -/
def queueLayoutUpdate {V : Type} (w : World V) (value : V) (flags : LifecycleFlags) : World V :=
  let w' := cancelPending w
  let task : BindingTask V := { id := w.nextTaskId, payload := TaskPayload.render w.now value flags }
  { w' with
    renderQueue := w'.renderQueue ++ [task]
    nextTaskId := w.nextTaskId + 1
    binding := { w'.binding with task := some w.nextTaskId } }

/-- The tail of the target branch of `handleChange` for non-`oneTime` modes:
`version++`, `sourceExpression.connect(...)`, `unobserve(false)`. -/
def connectAfterTarget {V : Type} (w : World V) (flags : LifecycleFlags) : World V :=
  { w with
    binding := { w.binding with version := w.binding.version + 1 }
    log := w.log ++ [BindingEffect.exprConnect flags, BindingEffect.unobserve false] }

/-- The `updateTargetInstance` branch of `handleChange`. -/
def handleChangeTargetBranch {V : Type} [DecidableEq V]
    (w : World V) (obs : TargetObserver V) (nv : V) (flags : LifecycleFlags) : World V :=
  let newValue := effectiveNewValue w.binding nv
  let w1 :=
    if newValue = obs.value then w
    else if obs.type.layout then queueLayoutUpdate w newValue flags
    else updateTarget w newValue flags
  if w.binding.mode.oneTime then w1 else connectAfterTarget w1 flags

/-- `AttributeBinding.handleChange`.  Returns `.error 15` for
`throw Reporter.error(15, flags)`; otherwise `.ok` with the next world. -/
def handleChange {V : Type} [DecidableEq V]
    (w : World V) (nv : V) (flags0 : LifecycleFlags) : Except Nat (World V) :=
  if !w.binding.state.isBound then Except.ok w
  else
    let flags := adjustFlags w.binding flags0
    if flags.updateTargetInstance then
      match w.binding.targetObserver with
      | none => Except.ok w
      | some obs => Except.ok (handleChangeTargetBranch w obs nv flags)
    else if flags.updateSourceExpression then
      Except.ok (if nv = w.binding.sourceExpression.value then w else updateSource w nv flags)
    else Except.error 15

/-- Running a queued task.  A cancelled task never runs its callback.  The
render closure re-checks the captured timestamp against the observer's
`lastUpdate` and the binding's `isBound` bit before writing; the micro
closure from `$bind` re-evaluates the captured source expression and writes
unconditionally. -/
def runTask {V : Type} [DecidableEq V] (w : World V) (t : BindingTask V) : World V :=
  if t.cancelled then w
  else
    match t.payload with
    | TaskPayload.render time value flags =>
      match w.binding.targetObserver with
      | none => w
      | some obs =>
        if time > obs.lastUpdate ∧ w.binding.state.isBound then updateTarget w value flags
        else w
    | TaskPayload.micro flags =>
      updateTarget w w.binding.sourceExpression.value flags

/-- `AttributeBinding.$unbind`. -/
def attrUnbind {V : Type} (w : World V) (_flags : LifecycleFlags) : World V :=
  if !w.binding.state.isBound then w
  else
    let b := w.binding
    let b := { b with state := { b.state with isUnbinding := true }
                      persistentFlags := LifecycleFlags.noFlags }
    let w := { w with binding := b }
    let w := if b.sourceExpression.hasUnbind
             then { w with log := w.log ++ [BindingEffect.exprUnbind] } else w
    let w := { w with binding := { w.binding with scope := none } }
    let w :=
      match w.binding.targetObserver with
      | none => w
      | some obs =>
        let w := if obs.hasUnbind
                 then { w with log := w.log ++ [BindingEffect.observerUnbind] } else w
        if obs.hasUnsubscribe then
          let obs2 := { obs with subscribed := false,
                                 subscribedFlags := { obs.subscribedFlags with updateSourceExpression := false } }
          { w with
            binding := { w.binding with targetObserver := some obs2 }
            log := w.log ++ [BindingEffect.unsubscribe] }
        else w
    let w := { w with log := w.log ++ [BindingEffect.unobserve true] }
    { w with binding := { w.binding with state :=
        { w.binding.state with isBound := false, isUnbinding := false } } }

/-- `$bind` phase 1: raise `isBinding`, store the persistent flags, store
scope and part, and run the source expression's `bind` hook if present. -/
def bindPhase1 {V : Type} (w : World V) (flags0 : LifecycleFlags)
    (scope : Nat) (part : Option String) : World V :=
  let b := w.binding
  let b := { b with state := { b.state with isBinding := true }
                    persistentFlags := flags0.persistentPart
                    scope := some scope
                    part := part }
  let w := { w with binding := b }
  if b.sourceExpression.hasBind then { w with log := w.log ++ [BindingEffect.exprBind] } else w

/-- `$bind`: construct the `AttributeObserver` on first bind. -/
def ensureObserver {V : Type} (w : World V) : World V :=
  match w.binding.targetObserver with
  | some _ => w
  | none => { w with binding := { w.binding with targetObserver := some w.binding.freshObserver } }

/-- `$bind`: `if (targetObserver.bind) targetObserver.bind(flags)`. -/
def observerBindStep {V : Type} (w : World V) : World V :=
  match w.binding.targetObserver with
  | some obs =>
    if obs.hasBind then { w with log := w.log ++ [BindingEffect.observerBind] } else w
  | none => w

/-- `$bind`: the `toView | oneTime` block — queue the deferred microtask when
the observer is node-typed (cancelling any pending task first), then push the
evaluated source to the target eagerly in the same call. -/
def initialToViewStep {V : Type} (w : World V) (flags0 : LifecycleFlags) : World V :=
  if w.binding.mode.toView || w.binding.mode.oneTime then
    let w :=
      match w.binding.targetObserver with
      | some obs =>
        if obs.type.node then
          let w' := cancelPending w
          let task : BindingTask V := { id := w.nextTaskId, payload := TaskPayload.micro flags0 }
          { w' with
            microQueue := w'.microQueue ++ [task]
            nextTaskId := w.nextTaskId + 1
            binding := { w'.binding with task := some w.nextTaskId } }
        else w
      | none => w
    updateTarget w w.binding.sourceExpression.value flags0
  else w

/-- `$bind`: the `toView` connect step. -/
def connectStep {V : Type} (w : World V) (flags0 : LifecycleFlags) : World V :=
  if w.binding.mode.toView then { w with log := w.log ++ [BindingEffect.exprConnect flags0] } else w

/-- `$bind`: the `fromView` step — set `updateSourceExpression` in the
observer's per-binding flag slot and subscribe. -/
def fromViewStep {V : Type} (w : World V) : World V :=
  if w.binding.mode.fromView then
    match w.binding.targetObserver with
    | some obs =>
      let obs2 := { obs with subscribedFlags := { obs.subscribedFlags with updateSourceExpression := true },
                             subscribed := true }
      { w with
        binding := { w.binding with targetObserver := some obs2 }
        log := w.log ++ [BindingEffect.subscribe] }
    | none => w
  else w

/-- `$bind`: raise `isBound`, clear `isBinding`. -/
def finalizeBind {V : Type} (w : World V) : World V :=
  { w with binding := { w.binding with state :=
      { w.binding.state with isBound := true, isBinding := false } } }

/-- The straight-line body of `$bind` after the already-bound early return. -/
def attrBindCore {V : Type} (w : World V) (flags0 : LifecycleFlags)
    (scope : Nat) (part : Option String) : World V :=
  finalizeBind
    (fromViewStep
      (connectStep
        (initialToViewStep
          (observerBindStep
            (ensureObserver
              (bindPhase1 w flags0 scope part)))
          flags0)
        flags0))

/-- `AttributeBinding.$bind`: if already bound to the same scope, return
immediately; if bound to another scope, `$unbind(flags | fromBind)` first. -/
def attrBind {V : Type} (w : World V) (flags0 : LifecycleFlags)
    (scope : Nat) (part : Option String) : World V :=
  if w.binding.state.isBound then
    if w.binding.scope = some scope then w
    else attrBindCore (attrUnbind w { flags0 with fromBind := true }) flags0 scope part
  else attrBindCore w flags0 scope part

/-- True on the effects that are target writes (`targetObserver.setValue`). -/
def isTargetWrite {V : Type} : BindingEffect V → Bool
  | BindingEffect.targetWrite _ _ => true
  | _ => false

/-- True on the effects that are source assignments (`sourceExpression.assign`). -/
def isSourceAssign {V : Type} : BindingEffect V → Bool
  | BindingEffect.sourceAssign _ _ => true
  | _ => false

/-- Modelled from the spec: the router's routing-mode policy
(`configured-first` | `configured-only`); the router implementation is not
part of the analysed slice. -/
inductive RoutingMode where
  | configuredFirst
  | configuredOnly
deriving DecidableEq, Repr

/-- Modelled from the spec: the `RouteMatchError` surfaced to the caller of
`load()`, identifying the unmatched segment and the current node's
name/path. -/
structure RouteMatchError where
  segment : String
  ancestorPath : String
deriving DecidableEq, Repr

/-- Modelled from the spec: the error message, in the format
`'<segment>' ... did not match ... '<ancestor-path>'`. -/
def RouteMatchError.message (e : RouteMatchError) : String :=
  "Router error: the instruction " ++ "'" ++ e.segment ++ "'" ++
    " did not match any configured route or registered component name at " ++
    "'" ++ e.ancestorPath ++ "'"

/-- Modelled from the spec: one entry of a component's `children` route
configuration — either an explicit `{path, component}` pair or a bare
component reference (by component name). -/
structure ChildEntry where
  path : Option String
  component : String
deriving DecidableEq, Repr

/-- Modelled from the spec: a component's static route/dependency metadata —
its own optional `path` route metadata, its configured `children`, and its
declared `dependencies` (by component name). -/
structure CompMeta where
  path : Option String := none
  children : List ChildEntry := []
  dependencies : List String := []
deriving DecidableEq, Repr

/-- Modelled from the spec: the registry of component definitions, keyed by
component name. -/
abbrev Registry := List (String × CompMeta)

/-- Modelled from the spec: look a component's metadata up by name. -/
def lookupComp (reg : Registry) (name : String) : Option CompMeta :=
  match reg with
  | [] => none
  | (n, m) :: rest => if n = name then some m else lookupComp rest name

/-- Modelled from the spec: whether one configured child entry matches a
segment.  An explicit `{path, component}` pair matches by its path; a bare
component reference matches by the component's own declared `path` when it
has one, and by the component's name otherwise. -/
def matchChildEntry (reg : Registry) (e : ChildEntry) (seg : String) : Option String :=
  match e.path with
  | some p => if seg = p then some e.component else none
  | none =>
    match lookupComp reg e.component with
    | none => none
    | some meta =>
      match meta.path with
      | some p => if seg = p then some e.component else none
      | none => if seg = e.component then some e.component else none

/-- Modelled from the spec: first configured child matching the segment. -/
def matchChildren (reg : Registry) (es : List ChildEntry) (seg : String) : Option String :=
  match es with
  | [] => none
  | e :: rest =>
    match matchChildEntry reg e seg with
    | some c => some c
    | none => matchChildren reg rest seg

/-- Modelled from the spec: whether a component of the given name is
registered as a dependency at the current node or any of its ancestors (the
dependency registrations live in a hierarchical container).  A dependency is
only ever matched by its own component name. -/
def matchDependency (reg : Registry) (chain : List String) (seg : String) : Bool :=
  match chain with
  | [] => false
  | n :: rest =>
    (match lookupComp reg n with
     | some m => m.dependencies.contains seg
     | none => false) || matchDependency reg rest seg

/-- Modelled from the spec: resolve one segment at the current node — first
the configured children; then, under `configured-first` only, fall back to
a dependency registration by component name. -/
def matchedOf (reg : Registry) (mode : RoutingMode) (chain : List String)
    (meta : CompMeta) (seg : String) : Option String :=
  match matchChildren reg meta.children seg with
  | some c => some c
  | none =>
    if mode = RoutingMode.configuredFirst ∧ matchDependency reg chain seg then some seg
    else none

/-- Modelled from the spec: render the traversed chain as a `/`-joined path. -/
def pathOf (chain : List String) : String :=
  String.intercalate "/" chain

/-- Modelled from the spec: walk the route tree from the current chain of
nodes, consuming one segment per level; an unmatched segment fails with a
`RouteMatchError` naming the segment and the traversed path, and a segment
that would re-enter a component already present in the current resolution
path fails the same way, citing the full traversed path. -/
def resolveRoute (reg : Registry) (mode : RoutingMode) (chain : List String) :
    List String → Except RouteMatchError Unit
  | [] => Except.ok ()
  | seg :: rest =>
    match chain.getLast? with
    | none => Except.error ⟨seg, pathOf chain⟩
    | some curName =>
      match lookupComp reg curName with
      | none => Except.error ⟨seg, pathOf chain⟩
      | some meta =>
        match matchedOf reg mode chain meta seg with
        | none => Except.error ⟨seg, pathOf chain⟩
        | some c =>
          if chain.contains c then Except.error ⟨seg, pathOf chain⟩
          else resolveRoute reg mode (chain ++ [c]) rest

/-- Split a character list on `/`, accumulating the current (reversed) segment. -/
def splitSegsAux (cur : List Char) : List Char → List String
  | [] => [String.mk cur.reverse]
  | c :: cs =>
    if c = '/' then String.mk cur.reverse :: splitSegsAux [] cs
    else splitSegsAux (c :: cur) cs

/-- Split a path into its `/`-delimited segments. -/
def splitSegs (s : String) : List String :=
  splitSegsAux [] s.data

/-- Modelled from the spec: `router.load(path)` — split the path on `/` and
resolve from the activation root. -/
def loadRoute (reg : Registry) (mode : RoutingMode) (root : String) (path : String) :
    Except RouteMatchError Unit :=
  resolveRoute reg mode [root] (splitSegs path)

deriving instance DecidableEq for Except

/-- Whether `pat` begins `s` (character lists). -/
def leadsTo : List Char → List Char → Bool
  | [], _ => true
  | _ :: _, [] => false
  | a :: as, b :: bs => a = b && leadsTo as bs

/-- Find the first occurrence of `pat` in `s` and return the remainder of
`s` after it, if any. -/
def afterSub (pat : List Char) : List Char → Option (List Char)
  | [] => if pat.isEmpty then some [] else none
  | c :: cs =>
    if leadsTo pat (c :: cs) then some ((c :: cs).drop pat.length)
    else afterSub pat cs

/-- Whether the given fragments occur in the text, in order and without
overlap — the shape asserted by the tests' regular expressions
`/'x'.+did not match.+'y'/`. -/
def mentionsGo : List Char → List String → Bool
  | _, [] => true
  | s, p :: ps =>
    match afterSub p.data s with
    | some rest => mentionsGo rest ps
    | none => false

/-- Whether the message mentions each fragment, in order. -/
def mentionsInOrder (msg : String) (parts : List String) : Bool :=
  mentionsGo msg.data parts

/-- Registry of the fixtures where `a01` is declared only as a dependency of
`root` (no route configuration). -/
def regDependencyOnly : Registry := [("root", { dependencies := ["a01"] }), ("a01", {})]

/-- Registry of the fixtures where `root` configures `a01` as a bare child
reference and `a01` declares its own `path` route metadata `'a'`. -/
def regIndirectChild : Registry :=
  [("root", { children := [⟨none, "a01"⟩] }), ("a01", { path := some "a" })]

/-- Registry of the fixtures where `a01` declares `path` metadata `'a'` but is
listed only as a dependency of `root`. -/
def regDependencyOnlyPathed : Registry :=
  [("root", { dependencies := ["a01"] }), ("a01", { path := some "a" })]

/-- Registry of the deep-dependency fixtures: `root` declares `a11`, `a11`
declares `b11`, `b11` declares `c01`, each only as a dependency. -/
def regDeepDeps : Registry :=
  [("root", { dependencies := ["a11"] }), ("a11", { dependencies := ["b11"] }),
   ("b11", { dependencies := ["c01"] }), ("c01", {})]

/-- C1: for a component declared only as a dependency of the root,
`router.load` of the component's own name succeeds under `configured-first`,
and under `configured-only` it rejects with a `RouteMatchError` whose message
mentions the attempted name and the ancestor's name, in the order matched by
`/'a01'.+did not match.+'root'/`. -/
theorem router_dependency_by_name_modes :
    loadRoute regDependencyOnly RoutingMode.configuredFirst "root" "a01" = Except.ok ()
    ∧ loadRoute regDependencyOnly RoutingMode.configuredOnly "root" "a01" =
        Except.error ⟨"a01", "root"⟩
    ∧ mentionsInOrder (RouteMatchError.message ⟨"a01", "root"⟩)
        ["'a01'", "did not match", "'root'"] = true := by
  refine ⟨by decide, by decide, by decide⟩

/-- C2: a path that revisits an ancestor component by name always rejects: in
general, whenever the segment's match is a component already present in the
current resolution path, resolution fails with a `RouteMatchError` citing the
full traversed path; in particular `a11/b11/a11` over the deep-dependency
fixtures fails citing `root/a11/b11`, with a message matched by
`/'a11'.+did not match.+'root\/a11\/b11'/`. -/
theorem router_circular_path_rejected :
    (loadRoute regDeepDeps RoutingMode.configuredFirst "root" "a11/b11/a11" =
        Except.error ⟨"a11", "root/a11/b11"⟩
      ∧ mentionsInOrder (RouteMatchError.message ⟨"a11", "root/a11/b11"⟩)
          ["'a11'", "did not match", "'root/a11/b11'"] = true)
    ∧ ∀ (reg : Registry) (mode : RoutingMode) (chain : List String) (curName : String)
        (meta : CompMeta) (seg : String) (rest : List String) (c : String),
        chain.getLast? = some curName →
        lookupComp reg curName = some meta →
        matchedOf reg mode chain meta seg = some c →
        chain.contains c = true →
        resolveRoute reg mode chain (seg :: rest) = Except.error ⟨seg, pathOf chain⟩ := by
  refine ⟨⟨by decide, by decide⟩, ?_⟩
  intro reg mode chain curName meta seg rest c hlast hlook hmatch hmem
  simp only [resolveRoute, hlast, hlook, hmatch, hmem, if_true]

/-- Witness for C2's general clause at the point the failing test reaches:
the chain `root/a11/b11` with segment `a11`. -/
theorem router_circular_path_rejected_witness :
    resolveRoute regDeepDeps RoutingMode.configuredFirst ["root", "a11", "b11"] ["a11"] =
      Except.error ⟨"a11", "root/a11/b11"⟩ :=
  router_circular_path_rejected.2 regDeepDeps RoutingMode.configuredFirst
    ["root", "a11", "b11"] "b11" { dependencies := ["c01"] } "a11" [] "a11"
    (by decide) (by decide) (by decide) (by decide)

/-- C5: a component with its own `path` metadata configured as a bare child of
the root is not reachable by its own name: `router.load('a01')` rejects under
both routing modes with a `RouteMatchError` whose message is matched by
`/'a01'.+did not match.+'root'/`. -/
theorem router_indirect_path_not_by_name :
    loadRoute regIndirectChild RoutingMode.configuredFirst "root" "a01" =
        Except.error ⟨"a01", "root"⟩
    ∧ loadRoute regIndirectChild RoutingMode.configuredOnly "root" "a01" =
        Except.error ⟨"a01", "root"⟩
    ∧ mentionsInOrder (RouteMatchError.message ⟨"a01", "root"⟩)
        ["'a01'", "did not match", "'root'"] = true := by
  refine ⟨by decide, by decide, by decide⟩

/-- C6: a component registered only as a dependency is unreachable by its
declared indirect path under both routing modes: `router.load('a')` rejects
with a `RouteMatchError` whose message is matched by
`/'a'.+did not match.+'root'/`. -/
theorem router_dependency_not_by_path :
    loadRoute regDependencyOnlyPathed RoutingMode.configuredFirst "root" "a" =
        Except.error ⟨"a", "root"⟩
    ∧ loadRoute regDependencyOnlyPathed RoutingMode.configuredOnly "root" "a" =
        Except.error ⟨"a", "root"⟩
    ∧ mentionsInOrder (RouteMatchError.message ⟨"a", "root"⟩)
        ["'a'", "did not match", "'root'"] = true := by
  refine ⟨by decide, by decide, by decide⟩

/-- A sample target observer over `Nat` values. -/
def obsNat : TargetObserver Nat := { value := 5 }

/-- A sample source expression over `Nat` values, currently evaluating to `5`. -/
def exprNat : SourceExpr Nat := { value := 5 }

/-- A sample two-way binding, bound to scope `1`, with its observer created. -/
def bindingTw : AttributeBinding Nat :=
  { state := { isBound := true }, scope := some 1,
    mode := { toView := true, fromView := true },
    sourceExpression := exprNat, targetObserver := some obsNat, freshObserver := obsNat }

/-- A sample world holding the bound two-way binding. -/
def worldTw : World Nat := { binding := bindingTw }

/-- A change-notification flag set with only `updateTargetInstance`. -/
def fUT : LifecycleFlags := { updateTargetInstance := true }

/-- A change-notification flag set with only `updateSourceExpression`. -/
def fUS : LifecycleFlags := { updateSourceExpression := true }

/-- C4: while bound, `handleChange` throws the reported fatal error
`Reporter.error(15)` exactly when, after the mode adjustment, neither the
`updateTargetInstance` nor the `updateSourceExpression` flag is set; whenever
either is set it returns normally. -/
theorem handleChange_error_iff {V : Type} [DecidableEq V] (w : World V) (nv : V)
    (f : LifecycleFlags) (hb : w.binding.state.isBound = true) :
    (handleChange w nv f = Except.error 15 ↔
      (adjustFlags w.binding f).updateTargetInstance = false
      ∧ (adjustFlags w.binding f).updateSourceExpression = false)
    ∧ ((adjustFlags w.binding f).updateTargetInstance = true
        ∨ (adjustFlags w.binding f).updateSourceExpression = true →
       ∃ w2, handleChange w nv f = Except.ok w2) := by
  cases hti : (adjustFlags w.binding f).updateTargetInstance with
  | false =>
    cases hse : (adjustFlags w.binding f).updateSourceExpression with
    | false => simp [handleChange, hb, hti, hse]
    | true =>
      constructor
      · simp [handleChange, hb, hti, hse]
      · intro _
        simp only [handleChange, hb, Bool.not_true, Bool.false_eq_true, if_false, hti, hse,
          if_true]
        split <;> exact ⟨_, rfl⟩
  | true =>
    constructor
    · simp only [handleChange, hb, Bool.not_true, Bool.false_eq_true, if_false, hti, if_true]
      cases hobs : w.binding.targetObserver <;> simp
    · intro _
      simp only [handleChange, hb, Bool.not_true, Bool.false_eq_true, if_false, hti, if_true]
      cases hobs : w.binding.targetObserver <;> exact ⟨_, rfl⟩

/-- Witness for C4 at a concrete bound world: with neither direction flag in
the incoming flags the call throws error 15. -/
theorem handleChange_error_iff_witness :
    handleChange worldTw 5 LifecycleFlags.noFlags = Except.error 15 :=
  (handleChange_error_iff worldTw 5 LifecycleFlags.noFlags rfl).1.mpr (by decide)

/-- C3: no redundant propagation in either direction of a two-way binding —
in the target branch, when the effective (re-evaluated) value equals the
observer's current value, no target write, no scheduled render task and no
observer change happen; in the source branch, when the incoming value equals
the expression's current evaluated value, the world is unchanged (no
`assign`). -/
theorem handleChange_no_redundant_propagation {V : Type} [DecidableEq V] (w : World V)
    (nv : V) (f : LifecycleFlags) (obs : TargetObserver V)
    (hb : w.binding.state.isBound = true)
    (hobs : w.binding.targetObserver = some obs) :
    ((adjustFlags w.binding f).updateTargetInstance = true →
      effectiveNewValue w.binding nv = obs.value →
      ∃ w2, handleChange w nv f = Except.ok w2
        ∧ w2.log.filter isTargetWrite = w.log.filter isTargetWrite
        ∧ w2.renderQueue = w.renderQueue
        ∧ w2.binding.targetObserver = w.binding.targetObserver)
    ∧ ((adjustFlags w.binding f).updateTargetInstance = false →
       (adjustFlags w.binding f).updateSourceExpression = true →
       nv = w.binding.sourceExpression.value →
       handleChange w nv f = Except.ok w) := by
  constructor
  · intro hti heq
    have hres : handleChange w nv f =
        Except.ok (handleChangeTargetBranch w obs nv (adjustFlags w.binding f)) := by
      simp [handleChange, hb, hti, hobs]
    have hbr : handleChangeTargetBranch w obs nv (adjustFlags w.binding f) =
        if w.binding.mode.oneTime then w else connectAfterTarget w (adjustFlags w.binding f) := by
      simp [handleChangeTargetBranch, heq]
    refine ⟨handleChangeTargetBranch w obs nv (adjustFlags w.binding f), hres, ?_⟩
    rw [hbr]
    cases hone : w.binding.mode.oneTime with
    | true => simp
    | false => simp [connectAfterTarget, isTargetWrite, List.filter_append]
  · intro hti hse heq
    simp [handleChange, hb, hti, hse, heq]

/-- Witness for C3 at a concrete two-way world whose evaluated source value
equals the observer's current value. -/
theorem handleChange_no_redundant_propagation_witness :
    ∃ w2, handleChange worldTw 5 fUT = Except.ok w2
      ∧ w2.log.filter isTargetWrite = worldTw.log.filter isTargetWrite
      ∧ w2.renderQueue = worldTw.renderQueue
      ∧ w2.binding.targetObserver = worldTw.binding.targetObserver :=
  (handleChange_no_redundant_propagation worldTw 5 fUT obsNat rfl rfl).1
    (by decide) (by decide)

/-- A member of a cancel-marked queue bearing the cancelled id is cancelled. -/
theorem cancelTask_mem {V : Type} (id : Nat) (q : List (BindingTask V)) (t : BindingTask V)
    (ht : t ∈ cancelTask id q) (hid : t.id = id) : t.cancelled = true := by
  unfold cancelTask at ht
  rcases List.mem_map.1 ht with ⟨t0, _, heq⟩
  by_cases h : t0.id = id
  · rw [if_pos h] at heq
    subst heq
    rfl
  · rw [if_neg h] at heq
    subst heq
    exact absurd hid h

/-- `cancelPending` leaves the effect log unchanged. -/
theorem cancelPending_log {V : Type} (w : World V) : (cancelPending w).log = w.log := by
  unfold cancelPending
  split <;> rfl

/-- `cancelPending` leaves the binding itself unchanged. -/
theorem cancelPending_binding {V : Type} (w : World V) :
    (cancelPending w).binding = w.binding := by
  unfold cancelPending
  split <;> rfl

/-- After `cancelPending`, every render-queue entry bearing the binding's
pending task id is cancelled. -/
theorem cancelPending_render_cancelled {V : Type} (w : World V) (t : BindingTask V)
    (ht : t ∈ (cancelPending w).renderQueue) (hid : w.binding.task = some t.id) :
    t.cancelled = true := by
  unfold cancelPending at ht
  split at ht
  · next h => rw [h] at hid; cases hid
  · next i h =>
    rw [h] at hid
    injection hid with hi
    exact cancelTask_mem i w.renderQueue t ht hi.symm

/-- After `cancelPending`, every micro-queue entry bearing the binding's
pending task id is cancelled. -/
theorem cancelPending_micro_cancelled {V : Type} (w : World V) (t : BindingTask V)
    (ht : t ∈ (cancelPending w).microQueue) (hid : w.binding.task = some t.id) :
    t.cancelled = true := by
  unfold cancelPending at ht
  split at ht
  · next h => rw [h] at hid; cases hid
  · next i h =>
    rw [h] at hid
    injection hid with hi
    exact cancelTask_mem i w.microQueue t ht hi.symm

/-- The render task freshly queued by the layout branch: next id, stamped
with the current time, not cancelled. -/
def freshRenderTask {V : Type} (w : World V) (v : V) (fl : LifecycleFlags) : BindingTask V :=
  { id := w.nextTaskId, payload := TaskPayload.render w.now v fl, cancelled := false }

/-- Field accounting for `queueLayoutUpdate`: the log and the observer are
untouched, the binding's pending-task slot points at the fresh id, the fresh
render task (stamped with the current time) is appended after the
cancel-marked render queue, and the micro queue is just cancel-marked. -/
theorem queueLayoutUpdate_fields {V : Type} (w : World V) (v : V) (fl : LifecycleFlags) :
    (queueLayoutUpdate w v fl).log = w.log
    ∧ (queueLayoutUpdate w v fl).binding.targetObserver = w.binding.targetObserver
    ∧ (queueLayoutUpdate w v fl).binding.task = some w.nextTaskId
    ∧ (queueLayoutUpdate w v fl).renderQueue =
        (cancelPending w).renderQueue ++ [freshRenderTask w v fl]
    ∧ (queueLayoutUpdate w v fl).microQueue = (cancelPending w).microQueue := by
  unfold queueLayoutUpdate
  refine ⟨cancelPending_log w, ?_, rfl, rfl, rfl⟩
  show (cancelPending w).binding.targetObserver = w.binding.targetObserver
  rw [cancelPending_binding]

/-- Field accounting for `connectAfterTarget`: it only bumps the version and
logs the connect, so writes, queues, task slot and observer are unchanged. -/
theorem connectAfterTarget_fields {V : Type} (w : World V) (fl : LifecycleFlags) :
    (connectAfterTarget w fl).log.filter isTargetWrite = w.log.filter isTargetWrite
    ∧ (connectAfterTarget w fl).binding.targetObserver = w.binding.targetObserver
    ∧ (connectAfterTarget w fl).binding.task = w.binding.task
    ∧ (connectAfterTarget w fl).renderQueue = w.renderQueue
    ∧ (connectAfterTarget w fl).microQueue = w.microQueue := by
  unfold connectAfterTarget
  refine ⟨?_, rfl, rfl, rfl, rfl⟩
  simp [isTargetWrite, List.filter_append]

/-- C7: for a bound binding whose target observer is layout-typed, a change
notification with a fresh value performs no immediate target write; it
cancels the still-pending previously scheduled task (every queue entry
bearing the old pending id ends up cancelled, so the binding holds at most
one live pending task), registers a fresh render-tick task stamped with the
current time as the binding's pending task, and any such render task, when
run, writes the target exactly when its timestamp is strictly greater than
the observer's `lastUpdate` and the binding is still bound. -/
theorem handleChange_layout_schedules {V : Type} [DecidableEq V] (w : World V)
    (nv : V) (f : LifecycleFlags) (obs : TargetObserver V)
    (hb : w.binding.state.isBound = true)
    (hobs : w.binding.targetObserver = some obs)
    (hti : (adjustFlags w.binding f).updateTargetInstance = true)
    (hneq : effectiveNewValue w.binding nv ≠ obs.value)
    (hlayout : obs.type.layout = true)
    (htask : ∀ i, w.binding.task = some i → i < w.nextTaskId) :
    ∃ w2, handleChange w nv f = Except.ok w2
      ∧ w2.log.filter isTargetWrite = w.log.filter isTargetWrite
      ∧ w2.binding.targetObserver = w.binding.targetObserver
      ∧ w2.binding.task = some w.nextTaskId
      ∧ freshRenderTask w (effectiveNewValue w.binding nv) (adjustFlags w.binding f)
          ∈ w2.renderQueue
      ∧ (∀ t, t ∈ w2.renderQueue → w.binding.task = some t.id → t.cancelled = true)
      ∧ (∀ t, t ∈ w2.microQueue → w.binding.task = some t.id → t.cancelled = true)
      ∧ (∀ (w3 : World V) (t : BindingTask V) (time : Nat) (value : V)
           (fl : LifecycleFlags) (obs3 : TargetObserver V),
           t.payload = TaskPayload.render time value fl → t.cancelled = false →
           w3.binding.targetObserver = some obs3 →
           ((time > obs3.lastUpdate ∧ w3.binding.state.isBound = true) →
              runTask w3 t = updateTarget w3 value fl)
           ∧ (¬(time > obs3.lastUpdate ∧ w3.binding.state.isBound = true) →
              runTask w3 t = w3)) := by
  have hres : handleChange w nv f =
      Except.ok (handleChangeTargetBranch w obs nv (adjustFlags w.binding f)) := by
    simp [handleChange, hb, hti, hobs]
  have hbr : handleChangeTargetBranch w obs nv (adjustFlags w.binding f) =
      (if w.binding.mode.oneTime then
        queueLayoutUpdate w (effectiveNewValue w.binding nv) (adjustFlags w.binding f)
      else
        connectAfterTarget
          (queueLayoutUpdate w (effectiveNewValue w.binding nv) (adjustFlags w.binding f))
          (adjustFlags w.binding f)) := by
    simp [handleChangeTargetBranch, hneq, hlayout]
  obtain ⟨hql, hqo, hqt, hqr, hqm⟩ :=
    queueLayoutUpdate_fields w (effectiveNewValue w.binding nv) (adjustFlags w.binding f)
  have hrender : ∀ t, t ∈ (queueLayoutUpdate w (effectiveNewValue w.binding nv)
      (adjustFlags w.binding f)).renderQueue → w.binding.task = some t.id →
      t.cancelled = true := by
    intro t ht hid
    rw [hqr] at ht
    rcases List.mem_append.1 ht with h | h
    · exact cancelPending_render_cancelled w t h hid
    · have := List.mem_singleton.1 h
      subst this
      exact absurd (htask _ hid) (by simp [freshRenderTask])
  have hmicro : ∀ t, t ∈ (queueLayoutUpdate w (effectiveNewValue w.binding nv)
      (adjustFlags w.binding f)).microQueue → w.binding.task = some t.id →
      t.cancelled = true := by
    intro t ht hid
    rw [hqm] at ht
    exact cancelPending_micro_cancelled w t ht hid
  have hmem : freshRenderTask w (effectiveNewValue w.binding nv) (adjustFlags w.binding f)
      ∈ (queueLayoutUpdate w (effectiveNewValue w.binding nv)
          (adjustFlags w.binding f)).renderQueue := by
    rw [hqr]
    exact List.mem_append.2 (Or.inr (List.mem_singleton.2 rfl))
  have hguard : ∀ (w3 : World V) (t : BindingTask V) (time : Nat) (value : V)
      (fl : LifecycleFlags) (obs3 : TargetObserver V),
      t.payload = TaskPayload.render time value fl → t.cancelled = false →
      w3.binding.targetObserver = some obs3 →
      ((time > obs3.lastUpdate ∧ w3.binding.state.isBound = true) →
         runTask w3 t = updateTarget w3 value fl)
      ∧ (¬(time > obs3.lastUpdate ∧ w3.binding.state.isBound = true) →
         runTask w3 t = w3) := by
    intro w3 t time value fl obs3 hp hc hobs3
    constructor
    · intro hg
      simp only [runTask, hc, hp, hobs3, Bool.false_eq_true, if_false]
      rw [if_pos hg]
    · intro hg
      simp only [runTask, hc, hp, hobs3, Bool.false_eq_true, if_false]
      rw [if_neg hg]
  cases hone : w.binding.mode.oneTime with
  | true =>
    simp only [hone, if_true] at hbr
    rw [hres, hbr]
    exact ⟨_, rfl, by rw [hql], hqo, hqt, hmem, hrender, hmicro, hguard⟩
  | false =>
    simp only [hone, Bool.false_eq_true, if_false] at hbr
    rw [hres, hbr]
    obtain ⟨hcl, hco, hct, hcr, hcm⟩ := connectAfterTarget_fields
      (queueLayoutUpdate w (effectiveNewValue w.binding nv) (adjustFlags w.binding f))
      (adjustFlags w.binding f)
    refine ⟨_, rfl, ?_, ?_, ?_, ?_, ?_, ?_, hguard⟩
    · rw [hcl, hql]
    · rw [hco, hqo]
    · rw [hct, hqt]
    · rw [hcr]; exact hmem
    · intro t ht hid
      rw [hcr] at ht
      exact hrender t ht hid
    · intro t ht hid
      rw [hcm] at ht
      exact hmicro t ht hid

/-- A layout-typed sample observer whose value differs from the source's. -/
def obsLayoutNat : TargetObserver Nat := { value := 0, type := { layout := true } }

/-- A bound `toView` binding over the layout-typed observer. -/
def bindingLayout : AttributeBinding Nat :=
  { state := { isBound := true }, scope := some 1, mode := { toView := true },
    sourceExpression := exprNat, targetObserver := some obsLayoutNat,
    freshObserver := obsLayoutNat }

/-- A world holding the layout binding, with a nonzero clock and task counter. -/
def worldLayout : World Nat := { binding := bindingLayout, now := 7, nextTaskId := 3 }

/-- Witness for C7 at the concrete layout world. -/
theorem handleChange_layout_schedules_witness :
    ∃ w2, handleChange worldLayout 5 fUT = Except.ok w2
      ∧ w2.log.filter isTargetWrite = worldLayout.log.filter isTargetWrite
      ∧ w2.binding.targetObserver = worldLayout.binding.targetObserver
      ∧ w2.binding.task = some worldLayout.nextTaskId
      ∧ freshRenderTask worldLayout (effectiveNewValue worldLayout.binding 5)
          (adjustFlags worldLayout.binding fUT) ∈ w2.renderQueue
      ∧ (∀ t, t ∈ w2.renderQueue → worldLayout.binding.task = some t.id → t.cancelled = true)
      ∧ (∀ t, t ∈ w2.microQueue → worldLayout.binding.task = some t.id → t.cancelled = true)
      ∧ (∀ (w3 : World Nat) (t : BindingTask Nat) (time : Nat) (value : Nat)
           (fl : LifecycleFlags) (obs3 : TargetObserver Nat),
           t.payload = TaskPayload.render time value fl → t.cancelled = false →
           w3.binding.targetObserver = some obs3 →
           ((time > obs3.lastUpdate ∧ w3.binding.state.isBound = true) →
              runTask w3 t = updateTarget w3 value fl)
           ∧ (¬(time > obs3.lastUpdate ∧ w3.binding.state.isBound = true) →
              runTask w3 t = w3)) :=
  handleChange_layout_schedules worldLayout 5 fUT obsLayoutNat rfl rfl (by decide)
    (by decide) (by decide) (by intro i h; simp [worldLayout, bindingLayout] at h)

/-- Oring a flag set with its own persistent part gives it back. -/
theorem union_persistentPart (f : LifecycleFlags) : f.union f.persistentPart = f := by
  simp [LifecycleFlags.union, LifecycleFlags.persistentPart, Nat.or_self]

/-- The observer in effect during `$bind`: the already-created one, or the
one constructed on first bind. -/
def bindTimeObserver {V : Type} (w : World V) : TargetObserver V :=
  w.binding.targetObserver.getD w.binding.freshObserver

/-- Field accounting for `$bind` phase 1. -/
theorem bindPhase1_fields {V : Type} (w : World V) (f : LifecycleFlags) (s : Nat)
    (p : Option String) :
    (bindPhase1 w f s p).binding.mode = w.binding.mode
    ∧ (bindPhase1 w f s p).binding.sourceExpression = w.binding.sourceExpression
    ∧ (bindPhase1 w f s p).binding.targetObserver = w.binding.targetObserver
    ∧ (bindPhase1 w f s p).binding.freshObserver = w.binding.freshObserver
    ∧ (bindPhase1 w f s p).binding.persistentFlags = f.persistentPart
    ∧ (bindPhase1 w f s p).binding.task = w.binding.task
    ∧ (bindPhase1 w f s p).microQueue = w.microQueue
    ∧ (bindPhase1 w f s p).nextTaskId = w.nextTaskId
    ∧ (bindPhase1 w f s p).now = w.now
    ∧ (bindPhase1 w f s p).log.filter isTargetWrite = w.log.filter isTargetWrite := by
  by_cases h : w.binding.sourceExpression.hasBind = true <;>
    simp [bindPhase1, h, isTargetWrite, List.filter_append]

/-- Field accounting for the observer-creation step of `$bind`. -/
theorem ensureObserver_fields {V : Type} (w : World V) :
    (ensureObserver w).binding.mode = w.binding.mode
    ∧ (ensureObserver w).binding.sourceExpression = w.binding.sourceExpression
    ∧ (ensureObserver w).binding.targetObserver = some (bindTimeObserver w)
    ∧ (ensureObserver w).binding.persistentFlags = w.binding.persistentFlags
    ∧ (ensureObserver w).binding.task = w.binding.task
    ∧ (ensureObserver w).microQueue = w.microQueue
    ∧ (ensureObserver w).nextTaskId = w.nextTaskId
    ∧ (ensureObserver w).now = w.now
    ∧ (ensureObserver w).log = w.log := by
  cases h : w.binding.targetObserver <;> simp [ensureObserver, bindTimeObserver, h]

/-- Field accounting for the observer `bind`-hook step of `$bind`. -/
theorem observerBindStep_fields {V : Type} (w : World V) :
    (observerBindStep w).binding = w.binding
    ∧ (observerBindStep w).microQueue = w.microQueue
    ∧ (observerBindStep w).renderQueue = w.renderQueue
    ∧ (observerBindStep w).nextTaskId = w.nextTaskId
    ∧ (observerBindStep w).now = w.now
    ∧ (observerBindStep w).log.filter isTargetWrite = w.log.filter isTargetWrite := by
  cases h : w.binding.targetObserver with
  | none => simp [observerBindStep, h]
  | some obs =>
    by_cases hb : obs.hasBind = true <;>
      simp [observerBindStep, h, hb, isTargetWrite, List.filter_append]

/-- Field accounting for the `toView` connect step of `$bind`. -/
theorem connectStep_fields {V : Type} (w : World V) (f : LifecycleFlags) :
    (connectStep w f).binding = w.binding
    ∧ (connectStep w f).microQueue = w.microQueue
    ∧ (connectStep w f).log.filter isTargetWrite = w.log.filter isTargetWrite := by
  by_cases h : w.binding.mode.toView = true <;>
    simp [connectStep, h, isTargetWrite, List.filter_append]

/-- Field accounting for the `fromView` subscribe step of `$bind`. -/
theorem fromViewStep_fields {V : Type} (w : World V) :
    (fromViewStep w).microQueue = w.microQueue
    ∧ (fromViewStep w).log.filter isTargetWrite = w.log.filter isTargetWrite := by
  by_cases h : w.binding.mode.fromView = true
  · cases ho : w.binding.targetObserver <;>
      simp [fromViewStep, h, ho, isTargetWrite, List.filter_append]
  · simp [fromViewStep, h]

/-- Field accounting for the bind finalization step. -/
theorem finalizeBind_fields {V : Type} (w : World V) :
    (finalizeBind w).microQueue = w.microQueue
    ∧ (finalizeBind w).log = w.log := by
  unfold finalizeBind
  exact ⟨rfl, rfl⟩

/-- The initial-push step over a node-typed observer: the deferred micro task
(bearing the fresh id and the bind-time flags) is queued, and the eager
target write still happens in the same call, appended to the log. -/
theorem initialToViewStep_node {V : Type} (w : World V) (f : LifecycleFlags)
    (obs : TargetObserver V)
    (hm : w.binding.mode.toView = true ∨ w.binding.mode.oneTime = true)
    (hobs : w.binding.targetObserver = some obs)
    (hn : obs.type.node = true) :
    BindingTask.mk w.nextTaskId (TaskPayload.micro f) false ∈ (initialToViewStep w f).microQueue
    ∧ (initialToViewStep w f).log.filter isTargetWrite =
        w.log.filter isTargetWrite ++
          [BindingEffect.targetWrite w.binding.sourceExpression.value
            { f.union w.binding.persistentFlags with updateTargetInstance := true }] := by
  have hcond : (w.binding.mode.toView || w.binding.mode.oneTime) = true := by
    rcases hm with h | h <;> simp [h]
  constructor
  · simp [initialToViewStep, hcond, hobs, hn, updateTarget, cancelPending_binding,
      cancelPending_log]
  · simp [initialToViewStep, hcond, hobs, hn, updateTarget, cancelPending_binding,
      cancelPending_log, isTargetWrite, List.filter_append]

/-- The initial-push step over a non-node observer: no micro task is queued,
only the eager target write happens. -/
theorem initialToViewStep_nonnode {V : Type} (w : World V) (f : LifecycleFlags)
    (obs : TargetObserver V)
    (hm : w.binding.mode.toView = true ∨ w.binding.mode.oneTime = true)
    (hobs : w.binding.targetObserver = some obs)
    (hn : obs.type.node = false) :
    (initialToViewStep w f).microQueue = w.microQueue
    ∧ (initialToViewStep w f).log.filter isTargetWrite =
        w.log.filter isTargetWrite ++
          [BindingEffect.targetWrite w.binding.sourceExpression.value
            { f.union w.binding.persistentFlags with updateTargetInstance := true }] := by
  have hcond : (w.binding.mode.toView || w.binding.mode.oneTime) = true := by
    rcases hm with h | h <;> simp [h]
  constructor
  · simp [initialToViewStep, hcond, hobs, hn, updateTarget]
  · simp [initialToViewStep, hcond, hobs, hn, updateTarget, isTargetWrite, List.filter_append]

/-- C8: on `$bind` with a `toView` or `oneTime` mode, the initial push to the
target happens eagerly in the same call (exactly one target write of the
evaluated source value is appended), a deferred microtask is queued exactly
when the bind-time target observer is node-typed, and any such micro task,
when run, performs the same `updateTarget` of the evaluated source value. -/
theorem attrBind_initial_push {V : Type} [DecidableEq V] (w : World V)
    (f : LifecycleFlags) (s : Nat) (p : Option String)
    (hnb : w.binding.state.isBound = false)
    (hmode : w.binding.mode.toView = true ∨ w.binding.mode.oneTime = true) :
    ((attrBind w f s p).log.filter isTargetWrite = w.log.filter isTargetWrite ++
       [BindingEffect.targetWrite w.binding.sourceExpression.value
         { f with updateTargetInstance := true }])
    ∧ ((bindTimeObserver w).type.node = true →
        BindingTask.mk w.nextTaskId (TaskPayload.micro f) false ∈ (attrBind w f s p).microQueue)
    ∧ ((bindTimeObserver w).type.node = false →
        (attrBind w f s p).microQueue = w.microQueue)
    ∧ (∀ (w3 : World V) (t : BindingTask V) (fl : LifecycleFlags),
        t.payload = TaskPayload.micro fl → t.cancelled = false →
        runTask w3 t = updateTarget w3 w3.binding.sourceExpression.value fl) := by
  have hcore : attrBind w f s p = attrBindCore w f s p := by
    simp [attrBind, hnb]
  obtain ⟨h1mode, h1src, h1obs, h1fresh, h1pf, h1task, h1mq, h1next, h1now, h1log⟩ :=
    bindPhase1_fields w f s p
  obtain ⟨h2mode, h2src, h2obs, h2pf, h2task, h2mq, h2next, h2now, h2log⟩ :=
    ensureObserver_fields (bindPhase1 w f s p)
  obtain ⟨h3b, h3mq, h3rq, h3next, h3now, h3log⟩ :=
    observerBindStep_fields (ensureObserver (bindPhase1 w f s p))
  have hbto : bindTimeObserver (bindPhase1 w f s p) = bindTimeObserver w := by
    unfold bindTimeObserver
    rw [h1obs, h1fresh]
  have hw3 : (observerBindStep (ensureObserver (bindPhase1 w f s p))).binding.targetObserver =
      some (bindTimeObserver w) := by
    rw [h3b, h2obs, hbto]
  have hw3mode : (observerBindStep (ensureObserver (bindPhase1 w f s p))).binding.mode.toView = true
      ∨ (observerBindStep (ensureObserver (bindPhase1 w f s p))).binding.mode.oneTime = true := by
    rw [h3b, h2mode, h1mode]
    exact hmode
  have hw3src : (observerBindStep (ensureObserver (bindPhase1 w f s p))).binding.sourceExpression =
      w.binding.sourceExpression := by
    rw [h3b, h2src, h1src]
  have hw3pf : (observerBindStep (ensureObserver (bindPhase1 w f s p))).binding.persistentFlags =
      f.persistentPart := by
    rw [h3b, h2pf, h1pf]
  have hw3mq : (observerBindStep (ensureObserver (bindPhase1 w f s p))).microQueue =
      w.microQueue := by
    rw [h3mq, h2mq, h1mq]
  have hw3next : (observerBindStep (ensureObserver (bindPhase1 w f s p))).nextTaskId =
      w.nextTaskId := by
    rw [h3next, h2next, h1next]
  have hw3log : (observerBindStep (ensureObserver (bindPhase1 w f s p))).log.filter isTargetWrite =
      w.log.filter isTargetWrite := by
    rw [h3log, h2log, h1log]
  obtain ⟨h5b, h5mq, h5log⟩ :=
    connectStep_fields (initialToViewStep (observerBindStep (ensureObserver
      (bindPhase1 w f s p))) f) f
  obtain ⟨h6mq, h6log⟩ :=
    fromViewStep_fields (connectStep (initialToViewStep (observerBindStep (ensureObserver
      (bindPhase1 w f s p))) f) f)
  obtain ⟨h7mq, h7log⟩ :=
    finalizeBind_fields (fromViewStep (connectStep (initialToViewStep (observerBindStep
      (ensureObserver (bindPhase1 w f s p))) f) f))
  have hwrite : { f.union (observerBindStep (ensureObserver
      (bindPhase1 w f s p))).binding.persistentFlags with updateTargetInstance := true } =
      { f with updateTargetInstance := true } := by
    rw [hw3pf, union_persistentPart]
  refine ⟨?_, ?_, ?_, ?_⟩
  · rw [hcore]
    show (finalizeBind (fromViewStep (connectStep (initialToViewStep (observerBindStep
      (ensureObserver (bindPhase1 w f s p))) f) f))).log.filter isTargetWrite = _
    rw [h7log, h6log, h5log]
    rcases hnode : (bindTimeObserver w).type.node with _ | _
    · obtain ⟨_, hl⟩ := initialToViewStep_nonnode _ f (bindTimeObserver w) hw3mode hw3 hnode
      rw [hl, hw3log, hw3src, hwrite]
    · obtain ⟨_, hl⟩ := initialToViewStep_node _ f (bindTimeObserver w) hw3mode hw3 hnode
      rw [hl, hw3log, hw3src, hwrite]
  · intro hnode
    rw [hcore]
    show BindingTask.mk w.nextTaskId (TaskPayload.micro f) false ∈
      (finalizeBind (fromViewStep (connectStep (initialToViewStep (observerBindStep
        (ensureObserver (bindPhase1 w f s p))) f) f))).microQueue
    rw [h7mq, h6mq, h5mq]
    obtain ⟨hmem, _⟩ := initialToViewStep_node _ f (bindTimeObserver w) hw3mode hw3 hnode
    rw [hw3next] at hmem
    exact hmem
  · intro hnode
    rw [hcore]
    show (finalizeBind (fromViewStep (connectStep (initialToViewStep (observerBindStep
      (ensureObserver (bindPhase1 w f s p))) f) f))).microQueue = w.microQueue
    rw [h7mq, h6mq, h5mq]
    obtain ⟨hmq, _⟩ := initialToViewStep_nonnode _ f (bindTimeObserver w) hw3mode hw3 hnode
    rw [hmq, hw3mq]
  · intro w3 t fl hp hc
    simp only [runTask, hc, hp, Bool.false_eq_true, if_false]

/-- A node-typed sample observer. -/
def obsNode : TargetObserver Nat := { value := 0, type := { node := true } }

/-- A not-yet-bound `toView` binding whose first bind will create the
node-typed observer. -/
def bindingUnbound : AttributeBinding Nat :=
  { mode := { toView := true }, sourceExpression := exprNat, freshObserver := obsNode }

/-- A world holding the unbound binding. -/
def worldUnbound : World Nat := { binding := bindingUnbound }

/-- Witness for C8 at the concrete unbound world with a node-typed observer. -/
theorem attrBind_initial_push_witness :
    ((attrBind worldUnbound fUT 1 none).log.filter isTargetWrite =
       worldUnbound.log.filter isTargetWrite ++
       [BindingEffect.targetWrite worldUnbound.binding.sourceExpression.value
         { fUT with updateTargetInstance := true }])
    ∧ ((bindTimeObserver worldUnbound).type.node = true →
        BindingTask.mk worldUnbound.nextTaskId (TaskPayload.micro fUT) false ∈
          (attrBind worldUnbound fUT 1 none).microQueue)
    ∧ ((bindTimeObserver worldUnbound).type.node = false →
        (attrBind worldUnbound fUT 1 none).microQueue = worldUnbound.microQueue)
    ∧ (∀ (w3 : World Nat) (t : BindingTask Nat) (fl : LifecycleFlags),
        t.payload = TaskPayload.micro fl → t.cancelled = false →
        runTask w3 t = updateTarget w3 w3.binding.sourceExpression.value fl) :=
  attrBind_initial_push worldUnbound fUT 1 none rfl (Or.inl rfl)

/-- After `$unbind` of a bound binding, the `isBound` bit is clear. -/
theorem attrUnbind_not_bound {V : Type} (w : World V) (f : LifecycleFlags)
    (hb : w.binding.state.isBound = true) :
    (attrUnbind w f).binding.state.isBound = false := by
  simp [attrUnbind, hb]

/-- C9: calling `$bind` while already bound to the same scope returns
immediately with the whole world unchanged; calling it while bound to a
different scope behaves exactly as a full `$unbind` (with `fromBind` added to
the flags) followed by a fresh `$bind`. -/
theorem attrBind_rebind {V : Type} [DecidableEq V] (w : World V) (f : LifecycleFlags)
    (s : Nat) (p : Option String) (hb : w.binding.state.isBound = true) :
    (w.binding.scope = some s → attrBind w f s p = w)
    ∧ (w.binding.scope ≠ some s →
        attrBind w f s p = attrBind (attrUnbind w { f with fromBind := true }) f s p) := by
  constructor
  · intro hs
    simp [attrBind, hb, hs]
  · intro hs
    have hub := attrUnbind_not_bound w { f with fromBind := true } hb
    simp [attrBind, hb, hs, hub]

/-- Witness for C9: rebinding the bound sample world to its own scope is the
identity. -/
theorem attrBind_rebind_witness :
    attrBind worldTw LifecycleFlags.noFlags 1 none = worldTw :=
  (attrBind_rebind worldTw LifecycleFlags.noFlags 1 none rfl).1 rfl

/-- C10: through an unbound binding no propagation happens — `handleChange`
returns at once with the world unchanged, and a queued render-tick task run
after the binding was unbound performs no target write (the world is
unchanged). -/
theorem unbound_no_writes {V : Type} [DecidableEq V] (w : World V) (nv : V)
    (f : LifecycleFlags) (t : BindingTask V) (time : Nat) (value : V) (fl : LifecycleFlags)
    (hnb : w.binding.state.isBound = false) :
    handleChange w nv f = Except.ok w
    ∧ (t.payload = TaskPayload.render time value fl → runTask w t = w) := by
  constructor
  · simp [handleChange, hnb]
  · intro hp
    by_cases hc : t.cancelled = true
    · simp [runTask, hc]
    · simp only [Bool.not_eq_true] at hc
      cases ho : w.binding.targetObserver with
      | none => simp [runTask, hc, hp, ho]
      | some obs => simp [runTask, hc, hp, ho, hnb]

/-- Witness for C10 at the concrete unbound world and a concrete pending
render task. -/
theorem unbound_no_writes_witness :
    handleChange worldUnbound 9 fUT = Except.ok worldUnbound
    ∧ runTask worldUnbound (BindingTask.mk 0 (TaskPayload.render 1 9 fUT) false) =
        worldUnbound :=
  ⟨(unbound_no_writes worldUnbound 9 fUT (BindingTask.mk 0 (TaskPayload.render 1 9 fUT) false)
      1 9 fUT rfl).1,
   (unbound_no_writes worldUnbound 9 fUT (BindingTask.mk 0 (TaskPayload.render 1 9 fUT) false)
      1 9 fUT rfl).2 rfl⟩
